import Mathlib

/-!
Verification development for the EZVIZ HP7 integration
(`custom_components/ezviz_hp7`).  The Python source is shallowly embedded:
Python dictionaries become association lists over a `PyVal` value type,
the API client (`api.py`) becomes pure functions over an `Hp7Api` record
parameterised by an oracle describing the external cloud client, and the
alarm-pulse binary sensor (`binary_sensor.py`) becomes an explicit state
machine over an `AlarmState` record with integer timestamps.
-/

namespace EzvizHp7

/-- A Python runtime value, as relevant to this integration: `None`,
booleans, ints, floats (modelled as rationals), strings, dicts
(association lists), and any other object (`other`). -/
inductive PyVal where
  | none
  | bool (b : Bool)
  | int (n : Int)
  | float (q : Rat)
  | str (s : String)
  | dict (entries : List (String × PyVal))
  | other

/-- Python `d.get(k)`: value at key `k`, or `None` when absent. -/
def pyGet (d : List (String × PyVal)) (k : String) : PyVal :=
  match d.find? (fun p => p.1 == k) with
  | some p => p.2
  | Option.none => PyVal.none

/-- Python `d.get(k, dflt)`. -/
def pyGetD (d : List (String × PyVal)) (k : String) (dflt : PyVal) : PyVal :=
  match d.find? (fun p => p.1 == k) with
  | some p => p.2
  | Option.none => dflt

/-- Whether a dict has a key (`k in d`). -/
def hasKey (d : List (String × PyVal)) (k : String) : Bool :=
  (d.find? (fun p => p.1 == k)).isSome

/-- Python truthiness of a value (`bool(v)`). -/
def pyTruthy : PyVal → Bool
  | PyVal.none => false
  | PyVal.bool b => b
  | PyVal.int n => n != 0
  | PyVal.float q => q != 0
  | PyVal.str s => s != ""
  | PyVal.dict l => !l.isEmpty
  | PyVal.other => true

/-- Python `a or b` on values: `b` when `a` is falsy, else `a`. -/
def pyOr (a b : PyVal) : PyVal :=
  if pyTruthy a then a else b

/-- Whether a value is a dict. -/
def isDict : PyVal → Bool
  | PyVal.dict _ => true
  | _ => false

/-- `binary_sensor._to_bool`: coerce an arbitrary value to a boolean.
True booleans stay; `None` is false; numbers are compared with 0; strings
are stripped, lowercased and matched against a fixed truthy set; anything
else is false. -/
def to_bool : PyVal → Bool
  | PyVal.bool b => b
  | PyVal.none => false
  | PyVal.int n => n != 0
  | PyVal.float q => q != 0
  | PyVal.str s => ["1", "true", "on", "yes", "y"].contains s.trim.toLower
  | PyVal.dict _ => false
  | PyVal.other => false

/-- `binary_sensor.PULSE_SECONDS`. -/
def PULSE_SECONDS : Int := 3

/-- `binary_sensor.ALARM_FIELD`. -/
def ALARM_FIELD : String := "alarm_name"

/-- `binary_sensor.ALARM_TIME_FIELD`. -/
def ALARM_TIME_FIELD : String := "last_alarm_time"

/-- `binary_sensor.ALARM_MAP`: (match values, translation key, device
class, icon) for each alarm-pulse category. -/
def ALARM_MAP : List (List String × String × Option String × String) :=
  [ (["Smart Detection Alarm"], "smart_detection_alarm", Option.none, "mdi:run"),
    (["Intelligent Detection Alarm"], "intelligent_detection_alarm", Option.none,
      "mdi:account-search"),
    (["Your doorbell is ringing"], "doorbell_ringing", Option.none, "mdi:doorbell"),
    (["EZVIZ app open the gate", "Monitor open the gate"], "gate_open", Option.none,
      "mdi:gate-open"),
    (["EZVIZ app unlock the lock", "Monitor unlock the lock"], "unlock_lock",
      Option.none, "mdi:lock-open-variant") ]

/-- `binary_sensor.SIMPLE_MAP`: (coordinator-data key, translation key)
for the plain binary sensors. -/
def SIMPLE_MAP : List (String × String) :=
  [("Motion_Trigger", "motion_trigger")]

/-- The mutable state of one `Hp7BinaryAlarm` entity: `_last_trigger`
(time of the last pulse start, or none) and `_prev_alarm_time` (the last
alarm-time string consumed, or none).  Times are integer seconds. -/
structure AlarmState where
  lastTrigger : Option Int
  prevAlarmTime : Option String
deriving DecidableEq, Repr

/-- Initial `Hp7BinaryAlarm` state (`__init__`): nothing triggered. -/
def initAlarmState : AlarmState := ⟨Option.none, Option.none⟩

/-- The two snapshot fields the alarm state machine reads:
`data.get("alarm_name")` and `data.get("last_alarm_time")`. -/
structure SnapData where
  alarmName : Option String
  alarmTime : Option String
deriving DecidableEq, Repr

/-- The trigger condition of `Hp7BinaryAlarm._handle_coordinator_update`:
`current_alarm in self._match_values and current_alarm_time is not None
and current_alarm_time != self._prev_alarm_time`. -/
def triggerCond (matchValues : List String) (s : AlarmState) (d : SnapData) : Bool :=
  (match d.alarmName with
   | some n => matchValues.contains n
   | Option.none => false)
  && (match d.alarmTime with
      | some t =>
        (match s.prevAlarmTime with
         | some p => t != p
         | Option.none => true)
      | Option.none => false)

/-- `Hp7BinaryAlarm._handle_coordinator_update` at time `now`: when the
trigger condition holds, record the alarm time as consumed and start a
pulse; otherwise leave the state unchanged. -/
def handleUpdate (matchValues : List String) (s : AlarmState) (d : SnapData)
    (now : Int) : AlarmState :=
  if triggerCond matchValues s d then
    { lastTrigger := some now, prevAlarmTime := d.alarmTime }
  else s

/-- `Hp7BinaryAlarm.is_on` read at time `now`: true when the last trigger
exists and less than `PULSE_SECONDS` have elapsed since it. -/
def isOn (s : AlarmState) (now : Int) : Bool :=
  match s.lastTrigger with
  | Option.none => false
  | some t => decide (now - t < PULSE_SECONDS)

/-- Read the alarm-relevant fields out of coordinator data, as
`_handle_coordinator_update` does (`data.get(ALARM_FIELD)` /
`data.get(ALARM_TIME_FIELD)`); a non-string field reads as absent. -/
def snapDataOf (data : List (String × PyVal)) : SnapData :=
  { alarmName :=
      match pyGet data ALARM_FIELD with
      | PyVal.str s => some s
      | _ => Option.none,
    alarmTime :=
      match pyGet data ALARM_TIME_FIELD with
      | PyVal.str s => some s
      | _ => Option.none }

/-- `Hp7BinarySimple.is_on`: coerce `(coordinator.data or {}).get(key)`
with `_to_bool`. -/
def binSimpleIsOn (cdata : Option (List (String × PyVal))) (key : String) : Bool :=
  to_bool (pyGet (cdata.getD []) key)

/-- `api.DEFAULT_DOOR_LOCK_NO`. -/
def DEFAULT_DOOR_LOCK_NO : Int := 2

/-- `api.DEFAULT_GATE_LOCK_NO`. -/
def DEFAULT_GATE_LOCK_NO : Int := 1

/-- `api.REGION_URLS`. -/
def REGION_URLS : List (String × String) :=
  [ ("eu", "apiieu.ezvizlife.com"),
    ("us", "apiisa.ezvizlife.com"),
    ("cn", "apiicn.ezvizlife.com"),
    ("as", "apiias.ezvizlife.com"),
    ("sa", "apiisa.ezvizlife.com"),
    ("ru", "apirus.ezvizru.com") ]

/-- `REGION_URLS.get(region, REGION_URLS["eu"])` as evaluated in
`Hp7Api.__init__`: lookup with fallback to the `eu` entry. -/
def regionUrl (region : String) : String :=
  match REGION_URLS.find? (fun p => p.1 == region) with
  | some p => p.2
  | Option.none =>
    match REGION_URLS.find? (fun p => p.1 == "eu") with
    | some p => p.2
    | Option.none => ""

/-- The state of an `Hp7Api` object (`api.Hp7Api`): credentials, region,
cached token, whether the `EzvizClient` has been created, the resolved
endpoint URL and the capability flags. -/
structure Hp7Api where
  username : String
  password : Option String
  region : String
  token : Option (List (String × PyVal))
  hasClient : Bool
  url : String
  supports_door : Bool
  supports_gate : Bool

/-- `Hp7Api.__init__`: store the arguments, resolve the endpoint URL
with fallback to `eu`, no client yet, both capability flags true. -/
def mkHp7Api (username : String) (password : Option String) (region : String)
    (token : Option (List (String × PyVal))) : Hp7Api :=
  { username := username, password := password, region := region,
    token := token, hasClient := false, url := regionUrl region,
    supports_door := true, supports_gate := true }

/-- Oracle describing the external cloud client (`pylocalapi`, outside
this integration): whether creating the client and logging in succeed,
the token a login returns, whether `remote_unlock` succeeds for a given
lock number, and the outcome of a `get_device_infos` probe (`.error`
standing for one of the exception classes the caller catches). -/
structure ClientEnv where
  initOk : Bool
  loginToken : List (String × PyVal)
  unlockOk : Int → Bool
  probe : Except Unit PyVal

/-- `Hp7Api.ensure_client`: no-op when a client exists; otherwise create
the client (logging in when no token is cached), raising `RuntimeError`
(`.error`) when creation or login fails. -/
def ensureClient (api : Hp7Api) (env : ClientEnv) : Except Unit Hp7Api :=
  if api.hasClient then Except.ok api
  else if env.initOk then
    Except.ok { api with hasClient := true,
                         token := some (api.token.getD env.loginToken) }
  else Except.error ()

/-- Python truthiness of the `_token` attribute (`not self._token`). -/
def tokenPresent : Option (List (String × PyVal)) → Bool
  | Option.none => false
  | some l => !l.isEmpty

/-- `Hp7Api._try_unlock`: ensure the client (which may raise), return
`False` without calling when token or client is missing, otherwise make
exactly one `remote_unlock` call and report its success (the call's own
exceptions are all caught and reported as `False`).  The result carries
the list of lock numbers actually sent to the client. -/
def tryUnlock (api : Hp7Api) (env : ClientEnv) (lockNo : Int) :
    Except Unit (Bool × List Int × Hp7Api) := do
  let a ← ensureClient api env
  if !(tokenPresent a.token) || !a.hasClient then
    Except.ok (false, [], a)
  else
    Except.ok (env.unlockOk lockNo, [lockNo], a)

/-- `Hp7Api.unlock_door`: `_try_unlock(serial, 2) or _try_unlock(serial, 1)`
with Python short-circuit semantics; the call list accumulates. -/
def unlockDoor (api : Hp7Api) (env : ClientEnv) : Except Unit (Bool × List Int × Hp7Api) := do
  let (r1, c1, a1) ← tryUnlock api env DEFAULT_DOOR_LOCK_NO
  if r1 then Except.ok (true, c1, a1)
  else do
    let (r2, c2, a2) ← tryUnlock a1 env DEFAULT_GATE_LOCK_NO
    Except.ok (r2, c1 ++ c2, a2)

/-- `Hp7Api.unlock_gate`: `_try_unlock(serial, 1) or _try_unlock(serial, 2)`
with Python short-circuit semantics; the call list accumulates. -/
def unlockGate (api : Hp7Api) (env : ClientEnv) : Except Unit (Bool × List Int × Hp7Api) := do
  let (r1, c1, a1) ← tryUnlock api env DEFAULT_GATE_LOCK_NO
  if r1 then Except.ok (true, c1, a1)
  else do
    let (r2, c2, a2) ← tryUnlock a1 env DEFAULT_DOOR_LOCK_NO
    Except.ok (r2, c1 ++ c2, a2)

/-- `Hp7Api.detect_capabilities`: ensure the client (which may raise),
probe `get_device_infos` ignoring the caught exception classes and
discarding the result, then set both capability flags to true. -/
def detectCapabilities (api : Hp7Api) (env : ClientEnv) : Except Unit Hp7Api := do
  let a ← ensureClient api env
  let _dev : Except Unit PyVal := env.probe
  Except.ok { a with supports_door := true, supports_gate := true }

/-- The fixed key set of the normalized status dict built by
`Hp7Api.get_status`. -/
def FIXED_KEYS : List String :=
  [ "name", "version", "upgrade_available", "status", "wan_ip",
    "pir_status", "motion", "seconds_last_trigger", "last_alarm_time",
    "last_alarm_pic", "alarm_name", "ssid", "signal", "local_ip" ]

/-- The dict literal built by `Hp7Api.get_status` from a raw
`camera.status()` result: each fixed key reads its raw source key with
`.get` (so `None` when absent), the wifi fields read the `WIFI`
sub-dict (defaulting to `{}`), and `local_ip` falls back to the wifi
`address` via Python `or`.  `wifi_info.get(...)` on a non-dict `WIFI`
value raises `AttributeError` (`.error`), which `get_status` catches. -/
def normalizeStatus (raw : List (String × PyVal)) :
    Except Unit (List (String × PyVal)) :=
  match pyGetD raw "WIFI" (PyVal.dict []) with
  | PyVal.dict wifi =>
    Except.ok
      [ ("name", pyGet raw "name"),
        ("version", pyGet raw "version"),
        ("upgrade_available", pyGet raw "upgrade_available"),
        ("status", pyGet raw "status"),
        ("wan_ip", pyGet raw "wan_ip"),
        ("pir_status", pyGet raw "PIR_Status"),
        ("motion", pyGet raw "Motion_Trigger"),
        ("seconds_last_trigger", pyGet raw "Seconds_Last_Trigger"),
        ("last_alarm_time", pyGet raw "last_alarm_time"),
        ("last_alarm_pic", pyGet raw "last_alarm_pic"),
        ("alarm_name", pyGet raw "last_alarm_type_name"),
        ("ssid", pyGet wifi "ssid"),
        ("signal", pyGet wifi "signal"),
        ("local_ip", pyOr (pyGet raw "local_ip") (pyGet wifi "address")) ]
  | _ => Except.error ()

/-- `Hp7Api.get_status`: ensure the client (`RuntimeError` propagates as
`.error`), then fetch `camera.status(refresh=True)` and normalize; every
exception from the fetch or the normalization is caught and an empty
dict `{}` is returned instead. -/
def getStatus (ensureOk : Bool) (fetch : Except Unit (List (String × PyVal))) :
    Except Unit (List (String × PyVal)) :=
  if ensureOk then
    Except.ok
      (match fetch with
       | Except.ok raw =>
         match normalizeStatus raw with
         | Except.ok snap => snap
         | Except.error _ => []
       | Except.error _ => [])
  else Except.error ()

/-- The host coordinator's state: the latest stored data (none before the
first successful refresh) and the success flag of the last refresh. -/
structure CoordState where
  data : Option (List (String × PyVal))
  lastSuccess : Bool

/-- Modelled from the spec: the host framework's update coordinator
(`homeassistant.helpers.update_coordinator.DataUpdateCoordinator`, an
external collaborator not in this repository).  Per the spec's Polling
Coordinator contract: on a successful fetch it replaces the stored data
and records success; on a fetch that raises it retains the previous data
unchanged and records failure, without raising further. -/
def coordRefresh (s : CoordState) (fetch : Except Unit (List (String × PyVal))) :
    CoordState :=
  match fetch with
  | Except.ok d => { data := some d, lastSuccess := true }
  | Except.error _ => { s with lastSuccess := false }

/-- Modelled from the spec: the host framework's
`async_config_entry_first_refresh` (external collaborator).  Per the
spec, the very first refresh escalates a fetch failure as a hard
not-ready startup failure (`ConfigEntryNotReady`, here `.error`);
otherwise the coordinator starts with the fetched data stored. -/
def firstRefresh (fetch : Except Unit (List (String × PyVal))) :
    Except Unit CoordState :=
  match fetch with
  | Except.ok d => Except.ok { data := some d, lastSuccess := true }
  | Except.error _ => Except.error ()

/-- `get_status`'s view of a successful fetch after normalization: the
normalized dict, or `{}` when normalization raised. -/
def normSnap (raw : List (String × PyVal)) : List (String × PyVal) :=
  match normalizeStatus raw with
  | Except.ok snap => snap
  | Except.error _ => []

/-- A raw `camera.status()` payload reporting a motion trigger. -/
def rawMotion1 : List (String × PyVal) := [("Motion_Trigger", PyVal.int 1)]

/-- A concrete `Hp7Api` state after setup: client created, token cached. -/
def sampleApi : Hp7Api :=
  { mkHp7Api "user" (some "pw") "eu" (some [("username", PyVal.str "user")]) with
      hasClient := true }

/-- A concrete client oracle: init succeeds, only lock number 1 unlocks,
the capability probe raises a caught error. -/
def sampleEnv : ClientEnv :=
  { initOk := true, loginToken := [("username", PyVal.str "user")],
    unlockOk := fun n => n == 1, probe := Except.error () }

/- ------------------------------------------------------------------ -/
/- Helper lemmas                                                       -/
/- ------------------------------------------------------------------ -/

lemma pyGet_eq_none_of_hasKey_false (d : List (String × PyVal)) (k : String)
    (h : hasKey d k = false) : pyGet d k = PyVal.none := by
  unfold hasKey at h
  unfold pyGet
  cases hf : d.find? (fun p => p.1 == k) <;> simp [hf] at h ⊢

lemma isOn_iff (s : AlarmState) (now : Int) :
    isOn s now = true ↔ ∃ t, s.lastTrigger = some t ∧ now - t < PULSE_SECONDS := by
  cases h : s.lastTrigger <;> simp [isOn, h]

/- ------------------------------------------------------------------ -/
/- Claim theorems                                                      -/
/- ------------------------------------------------------------------ -/

/-- C9: `_to_bool` is total and returns true exactly for a true boolean,
a nonzero int, a nonzero float, or a string whose stripped lowercase
form is one of "1", "true", "on", "yes", "y"; it returns false for
`None`, zero, every other string and every value of any other type. -/
theorem c9_to_bool_characterization (v : PyVal) :
    to_bool v = true ↔
      (v = PyVal.bool true ∨
       (∃ n : Int, v = PyVal.int n ∧ n ≠ 0) ∨
       (∃ q : Rat, v = PyVal.float q ∧ q ≠ 0) ∨
       (∃ s : String, v = PyVal.str s ∧
          s.trim.toLower ∈ ["1", "true", "on", "yes", "y"])) := by
  cases v <;> simp [to_bool]

/-- C10: constructing the API client with a region outside the supported
set does not fail; the endpoint URL silently falls back to the `eu`
region's endpoint. -/
theorem c10_region_fallback (username : String) (password : Option String)
    (token : Option (List (String × PyVal))) (region : String)
    (h : region ∉ ["eu", "us", "cn", "as", "sa", "ru"]) :
    (mkHp7Api username password region token).url = "apiieu.ezvizlife.com" := by
  simp only [List.mem_cons, List.not_mem_nil, or_false, not_or] at h
  obtain ⟨h1, h2, h3, h4, h5, h6⟩ := h
  have e1 : ("eu" == region) = false := by
    simp [beq_eq_false_iff_ne]; exact fun hh => h1 hh.symm
  have e2 : ("us" == region) = false := by
    simp [beq_eq_false_iff_ne]; exact fun hh => h2 hh.symm
  have e3 : ("cn" == region) = false := by
    simp [beq_eq_false_iff_ne]; exact fun hh => h3 hh.symm
  have e4 : ("as" == region) = false := by
    simp [beq_eq_false_iff_ne]; exact fun hh => h4 hh.symm
  have e5 : ("sa" == region) = false := by
    simp [beq_eq_false_iff_ne]; exact fun hh => h5 hh.symm
  have e6 : ("ru" == region) = false := by
    simp [beq_eq_false_iff_ne]; exact fun hh => h6 hh.symm
  simp [mkHp7Api, regionUrl, REGION_URLS, List.find?, e1, e2, e3, e4, e5, e6]

theorem c10_region_fallback_witness :
    "xx" ∉ ["eu", "us", "cn", "as", "sa", "ru"] ∧
    (mkHp7Api "user" (some "pw") "xx" Option.none).url = "apiieu.ezvizlife.com" :=
  ⟨by decide, c10_region_fallback "user" (some "pw") Option.none "xx" (by decide)⟩

/-- C8: with the client established, `detect_capabilities` terminates
normally with both `supports_door` and `supports_gate` set to true, and
its result does not depend on the probe outcome at all (the probe result
is discarded). -/
theorem c8_capabilities_always_true (api : Hp7Api) (env : ClientEnv)
    (h : api.hasClient = true) :
    (detectCapabilities api env =
       Except.ok { api with supports_door := true, supports_gate := true }) ∧
    (∀ env2 : ClientEnv, detectCapabilities api env2 = detectCapabilities api env) := by
  constructor
  · simp [detectCapabilities, ensureClient, h, Bind.bind, Except.bind]
  · intro env2
    simp [detectCapabilities, ensureClient, h, Bind.bind, Except.bind]

theorem c8_capabilities_always_true_witness :
    sampleApi.hasClient = true ∧
    (detectCapabilities sampleApi sampleEnv =
       Except.ok { sampleApi with supports_door := true, supports_gate := true }) ∧
    (∀ env2 : ClientEnv, detectCapabilities sampleApi env2 =
       detectCapabilities sampleApi sampleEnv) :=
  ⟨rfl, c8_capabilities_always_true sampleApi sampleEnv rfl⟩

/-- C6: at every moment and for every alarm state, `is_on` equals
"`_last_trigger` is set and strictly less than `PULSE_SECONDS` have
elapsed since it"; the invariant is preserved by every coordinator
update (reads are pure and do not mutate the state). -/
theorem c6_pulse_invariant (s : AlarmState) (now : Int) :
    (isOn s now = true ↔
       ∃ t, s.lastTrigger = some t ∧ now - t < PULSE_SECONDS) ∧
    (∀ (mv : List String) (d : SnapData) (t0 : Int),
       isOn (handleUpdate mv s d t0) now = true ↔
         ∃ t, (handleUpdate mv s d t0).lastTrigger = some t ∧
              now - t < PULSE_SECONDS) :=
  ⟨isOn_iff s now, fun mv d t0 => isOn_iff (handleUpdate mv s d t0) now⟩

/-- C1: from any state, a non-matching snapshot leaves the alarm state
unchanged (output stays false from the initial state); a snapshot whose
alarm name is in the match set and whose alarm time differs from the
last consumed one starts a pulse that reads true exactly while less than
`PULSE_SECONDS` have elapsed; and any later snapshot carrying the same
alarm time leaves the state unchanged (it neither extends nor restarts
the pulse), even if its alarm name is still in the match set. -/
theorem c1_alarm_pulse (mv : List String) (s : AlarmState) (d : SnapData)
    (t0 now : Int) (htr : triggerCond mv s d = true) :
    (∀ m : Int, isOn initAlarmState m = false) ∧
    (∀ (s1 : AlarmState) (d1 : SnapData) (t1 : Int),
       triggerCond mv s1 d1 = false → handleUpdate mv s1 d1 t1 = s1) ∧
    (isOn (handleUpdate mv s d t0) now = true ↔ now < t0 + PULSE_SECONDS) ∧
    (∀ (d1 : SnapData) (t1 : Int), d1.alarmTime = d.alarmTime →
       handleUpdate mv (handleUpdate mv s d t0) d1 t1 = handleUpdate mv s d t0) := by
  refine ⟨?_, ?_, ?_, ?_⟩
  · intro m
    simp [isOn, initAlarmState]
  · intro s1 d1 t1 h1
    simp [handleUpdate, h1]
  · simp only [handleUpdate, htr, if_true]
    simp [isOn]
    omega
  · intro d1 t1 h1
    obtain ⟨a, ha⟩ : ∃ a, d.alarmTime = some a := by
      cases hdt : d.alarmTime with
      | none => rw [triggerCond, hdt] at htr; simp at htr
      | some a => exact ⟨a, rfl⟩
    simp only [handleUpdate, htr, if_true]
    have hcond : triggerCond mv { lastTrigger := some t0, prevAlarmTime := d.alarmTime }
        d1 = false := by
      rw [triggerCond]
      rw [h1, ha]
      simp
    simp [handleUpdate, hcond]

theorem c1_alarm_pulse_witness :
    triggerCond ["Your doorbell is ringing"] initAlarmState
      ⟨some "Your doorbell is ringing", some "2024-01-01 10:00:00"⟩ = true ∧
    (isOn (handleUpdate ["Your doorbell is ringing"] initAlarmState
        ⟨some "Your doorbell is ringing", some "2024-01-01 10:00:00"⟩ 0) 1 = true ↔
      (1 : Int) < 0 + PULSE_SECONDS) :=
  ⟨by decide,
    (c1_alarm_pulse ["Your doorbell is ringing"] initAlarmState
      ⟨some "Your doorbell is ringing", some "2024-01-01 10:00:00"⟩ 0 1
      (by decide)).2.2.1⟩

/-- The match sets of the five alarm categories are pairwise disjoint, so
any one name is contained in at most one of them. -/
lemma countP_contains_le_one (l : List (List String))
    (h : l.Pairwise (fun a b => ∀ x, x ∈ a → x ∉ b)) (s : String) :
    l.countP (fun mv => mv.contains s) ≤ 1 := by
  induction l with
  | nil =>
    rw [List.countP_nil]
    omega
  | cons hd tl ih =>
    rcases List.pairwise_cons.mp h with ⟨hhd, htl⟩
    rw [List.countP_cons]
    by_cases hs : hd.contains s = true
    · have hmem : s ∈ hd := by
        simpa using hs
      have hz : tl.countP (fun mv => mv.contains s) = 0 := by
        rw [List.countP_eq_zero]
        intro mv hmv
        have hnot := hhd mv hmv s hmem
        simpa using hnot
      rw [hz, hs]
      simp
    · have hf : hd.contains s = false := by
        simpa using hs
      rw [hf]
      simpa using ih htl

/-- C7: the five alarm categories' match sets are pairwise disjoint, so
a single alarm name is in at most one match set and a single snapshot
can satisfy at most one category's trigger condition on the same update,
whatever per-category state each machine carries. -/
theorem c7_categories_disjoint :
    ((ALARM_MAP.map (fun c => c.1)).Pairwise (fun a b => ∀ x, x ∈ a → x ∉ b)) ∧
    (∀ s : String,
       (ALARM_MAP.map (fun c => c.1)).countP (fun mv => mv.contains s) ≤ 1) ∧
    (∀ (d : SnapData) (stOf : List String → AlarmState),
       ALARM_MAP.countP (fun c => triggerCond c.1 (stOf c.1) d) ≤ 1) := by
  have hdisj : (ALARM_MAP.map (fun c => c.1)).Pairwise
      (fun a b => ∀ x, x ∈ a → x ∉ b) := by
    decide
  refine ⟨hdisj, fun s => countP_contains_le_one _ hdisj s, ?_⟩
  intro d stOf
  cases hdn : d.alarmName with
  | none =>
    have hz : ALARM_MAP.countP (fun c => triggerCond c.1 (stOf c.1) d) = 0 := by
      rw [List.countP_eq_zero]
      intro c hc
      rw [triggerCond, hdn]
      simp
    omega
  | some n =>
    have hmono : ALARM_MAP.countP (fun c => triggerCond c.1 (stOf c.1) d) ≤
        ALARM_MAP.countP (fun c => c.1.contains n) := by
      apply List.countP_mono_left
      intro c hc hcond
      rw [triggerCond, hdn] at hcond
      exact (Bool.and_eq_true_iff.mp hcond).1
    have hle := countP_contains_le_one _ hdisj n
    rw [List.countP_map] at hle
    calc ALARM_MAP.countP (fun c => triggerCond c.1 (stOf c.1) d)
        ≤ ALARM_MAP.countP (fun c => c.1.contains n) := hmono
      _ ≤ 1 := by simpa using hle

/-- C4: with the client established and a token cached, the door action
attempts lock 2 and, only if that fails, lock 1; the gate action
attempts lock 1 and, only if that fails, lock 2; each attempted lock
number produces exactly one client call, the dispatch short-circuits on
success, the returned boolean is true iff some attempt succeeded, and
neither action raises. -/
theorem c4_unlock_dispatch (api : Hp7Api) (env : ClientEnv)
    (hc : api.hasClient = true) (ht : tokenPresent api.token = true) :
    unlockDoor api env =
      Except.ok (env.unlockOk DEFAULT_DOOR_LOCK_NO || env.unlockOk DEFAULT_GATE_LOCK_NO,
        (if env.unlockOk DEFAULT_DOOR_LOCK_NO then [DEFAULT_DOOR_LOCK_NO]
         else [DEFAULT_DOOR_LOCK_NO, DEFAULT_GATE_LOCK_NO]), api) ∧
    unlockGate api env =
      Except.ok (env.unlockOk DEFAULT_GATE_LOCK_NO || env.unlockOk DEFAULT_DOOR_LOCK_NO,
        (if env.unlockOk DEFAULT_GATE_LOCK_NO then [DEFAULT_GATE_LOCK_NO]
         else [DEFAULT_GATE_LOCK_NO, DEFAULT_DOOR_LOCK_NO]), api) := by
  have htry : ∀ n : Int, tryUnlock api env n = Except.ok (env.unlockOk n, [n], api) := by
    intro n
    simp [tryUnlock, ensureClient, hc, ht, Bind.bind, Except.bind]
  constructor
  · rw [unlockDoor]
    simp only [htry, Bind.bind, Except.bind]
    cases h2 : env.unlockOk DEFAULT_DOOR_LOCK_NO <;>
      cases h1 : env.unlockOk DEFAULT_GATE_LOCK_NO <;> simp [htry, h1, h2]
  · rw [unlockGate]
    simp only [htry, Bind.bind, Except.bind]
    cases h2 : env.unlockOk DEFAULT_DOOR_LOCK_NO <;>
      cases h1 : env.unlockOk DEFAULT_GATE_LOCK_NO <;> simp [htry, h1, h2]

theorem c4_unlock_dispatch_witness :
    sampleApi.hasClient = true ∧ tokenPresent sampleApi.token = true ∧
    (unlockDoor sampleApi sampleEnv =
       Except.ok (sampleEnv.unlockOk DEFAULT_DOOR_LOCK_NO ||
           sampleEnv.unlockOk DEFAULT_GATE_LOCK_NO,
         (if sampleEnv.unlockOk DEFAULT_DOOR_LOCK_NO then [DEFAULT_DOOR_LOCK_NO]
          else [DEFAULT_DOOR_LOCK_NO, DEFAULT_GATE_LOCK_NO]), sampleApi)) ∧
    (unlockGate sampleApi sampleEnv =
       Except.ok (sampleEnv.unlockOk DEFAULT_GATE_LOCK_NO ||
           sampleEnv.unlockOk DEFAULT_DOOR_LOCK_NO,
         (if sampleEnv.unlockOk DEFAULT_GATE_LOCK_NO then [DEFAULT_GATE_LOCK_NO]
          else [DEFAULT_GATE_LOCK_NO, DEFAULT_DOOR_LOCK_NO]), sampleApi)) :=
  ⟨rfl, rfl,
    (c4_unlock_dispatch sampleApi sampleEnv rfl rfl).1,
    (c4_unlock_dispatch sampleApi sampleEnv rfl rfl).2⟩

/-- C5: for every raw payload whose `WIFI` field, when present, is a
dict (in particular for payloads omitting the whole `WIFI`
sub-structure), the normalizer succeeds, produces exactly the fixed key
set, and substitutes `None` for every absent source field — including
the wifi-derived fields when the `WIFI` sub-structure is missing. -/
theorem c5_normalizer_missing_fields (raw : List (String × PyVal))
    (hw : isDict (pyGetD raw "WIFI" (PyVal.dict [])) = true) :
    normalizeStatus raw = Except.ok (normSnap raw) ∧
    (normSnap raw).map Prod.fst = FIXED_KEYS ∧
    (hasKey raw "name" = false → pyGet (normSnap raw) "name" = PyVal.none) ∧
    (hasKey raw "version" = false → pyGet (normSnap raw) "version" = PyVal.none) ∧
    (hasKey raw "upgrade_available" = false →
       pyGet (normSnap raw) "upgrade_available" = PyVal.none) ∧
    (hasKey raw "status" = false → pyGet (normSnap raw) "status" = PyVal.none) ∧
    (hasKey raw "wan_ip" = false → pyGet (normSnap raw) "wan_ip" = PyVal.none) ∧
    (hasKey raw "PIR_Status" = false → pyGet (normSnap raw) "pir_status" = PyVal.none) ∧
    (hasKey raw "Motion_Trigger" = false → pyGet (normSnap raw) "motion" = PyVal.none) ∧
    (hasKey raw "Seconds_Last_Trigger" = false →
       pyGet (normSnap raw) "seconds_last_trigger" = PyVal.none) ∧
    (hasKey raw "last_alarm_time" = false →
       pyGet (normSnap raw) "last_alarm_time" = PyVal.none) ∧
    (hasKey raw "last_alarm_pic" = false →
       pyGet (normSnap raw) "last_alarm_pic" = PyVal.none) ∧
    (hasKey raw "last_alarm_type_name" = false →
       pyGet (normSnap raw) "alarm_name" = PyVal.none) ∧
    (hasKey raw "WIFI" = false →
       pyGet (normSnap raw) "ssid" = PyVal.none ∧
       pyGet (normSnap raw) "signal" = PyVal.none) ∧
    (hasKey raw "WIFI" = false → hasKey raw "local_ip" = false →
       pyGet (normSnap raw) "local_ip" = PyVal.none) := by
  cases hval : pyGetD raw "WIFI" (PyVal.dict []) with
  | dict wifi =>
    have hnorm : normalizeStatus raw = Except.ok
        [ ("name", pyGet raw "name"),
          ("version", pyGet raw "version"),
          ("upgrade_available", pyGet raw "upgrade_available"),
          ("status", pyGet raw "status"),
          ("wan_ip", pyGet raw "wan_ip"),
          ("pir_status", pyGet raw "PIR_Status"),
          ("motion", pyGet raw "Motion_Trigger"),
          ("seconds_last_trigger", pyGet raw "Seconds_Last_Trigger"),
          ("last_alarm_time", pyGet raw "last_alarm_time"),
          ("last_alarm_pic", pyGet raw "last_alarm_pic"),
          ("alarm_name", pyGet raw "last_alarm_type_name"),
          ("ssid", pyGet wifi "ssid"),
          ("signal", pyGet wifi "signal"),
          ("local_ip", pyOr (pyGet raw "local_ip") (pyGet wifi "address")) ] := by
      rw [normalizeStatus, hval]
    have hsnap : normSnap raw =
        [ ("name", pyGet raw "name"),
          ("version", pyGet raw "version"),
          ("upgrade_available", pyGet raw "upgrade_available"),
          ("status", pyGet raw "status"),
          ("wan_ip", pyGet raw "wan_ip"),
          ("pir_status", pyGet raw "PIR_Status"),
          ("motion", pyGet raw "Motion_Trigger"),
          ("seconds_last_trigger", pyGet raw "Seconds_Last_Trigger"),
          ("last_alarm_time", pyGet raw "last_alarm_time"),
          ("last_alarm_pic", pyGet raw "last_alarm_pic"),
          ("alarm_name", pyGet raw "last_alarm_type_name"),
          ("ssid", pyGet wifi "ssid"),
          ("signal", pyGet wifi "signal"),
          ("local_ip", pyOr (pyGet raw "local_ip") (pyGet wifi "address")) ] := by
      rw [normSnap, hnorm]
    have hwnil : hasKey raw "WIFI" = false → wifi = [] := by
      intro hk
      rw [pyGetD] at hval
      rw [hasKey] at hk
      cases hf : raw.find? (fun p => p.1 == "WIFI") <;> rw [hf] at hval hk
      · exact (PyVal.dict.inj hval).symm
      · simp at hk
    refine ⟨by rw [hnorm, hsnap], by rw [hsnap]; rfl, ?_, ?_, ?_, ?_, ?_, ?_, ?_,
      ?_, ?_, ?_, ?_, ?_, ?_⟩
    · intro hk
      rw [hsnap]
      simp [pyGet, List.find?]
      exact pyGet_eq_none_of_hasKey_false raw _ hk
    · intro hk
      rw [hsnap]
      simp [pyGet, List.find?]
      exact pyGet_eq_none_of_hasKey_false raw _ hk
    · intro hk
      rw [hsnap]
      simp [pyGet, List.find?]
      exact pyGet_eq_none_of_hasKey_false raw _ hk
    · intro hk
      rw [hsnap]
      simp [pyGet, List.find?]
      exact pyGet_eq_none_of_hasKey_false raw _ hk
    · intro hk
      rw [hsnap]
      simp [pyGet, List.find?]
      exact pyGet_eq_none_of_hasKey_false raw _ hk
    · intro hk
      rw [hsnap]
      simp [pyGet, List.find?]
      exact pyGet_eq_none_of_hasKey_false raw _ hk
    · intro hk
      rw [hsnap]
      simp [pyGet, List.find?]
      exact pyGet_eq_none_of_hasKey_false raw _ hk
    · intro hk
      rw [hsnap]
      simp [pyGet, List.find?]
      exact pyGet_eq_none_of_hasKey_false raw _ hk
    · intro hk
      rw [hsnap]
      simp [pyGet, List.find?]
      exact pyGet_eq_none_of_hasKey_false raw _ hk
    · intro hk
      rw [hsnap]
      simp [pyGet, List.find?]
      exact pyGet_eq_none_of_hasKey_false raw _ hk
    · intro hk
      rw [hsnap]
      simp [pyGet, List.find?]
      exact pyGet_eq_none_of_hasKey_false raw _ hk
    · intro hk
      rw [hsnap, hwnil hk]
      constructor <;> simp [pyGet, List.find?]
    · intro hk hk2
      have hn : pyGet raw "local_ip" = PyVal.none :=
        pyGet_eq_none_of_hasKey_false raw _ hk2
      have hval2 : pyOr (pyGet raw "local_ip")
          (pyGet ([] : List (String × PyVal)) "address") = PyVal.none := by
        rw [hn]
        rfl
      rw [hsnap, hwnil hk]
      simp [pyGet, List.find?]
      simpa [pyGet, List.find?] using hval2
  | none => rw [hval] at hw; simp [isDict] at hw
  | bool b => rw [hval] at hw; simp [isDict] at hw
  | int n => rw [hval] at hw; simp [isDict] at hw
  | float q => rw [hval] at hw; simp [isDict] at hw
  | str s => rw [hval] at hw; simp [isDict] at hw
  | other => rw [hval] at hw; simp [isDict] at hw

theorem c5_normalizer_missing_fields_witness :
    isDict (pyGetD ([] : List (String × PyVal)) "WIFI" (PyVal.dict [])) = true ∧
    normalizeStatus [] = Except.ok (normSnap []) ∧
    (normSnap []).map Prod.fst = FIXED_KEYS ∧
    pyGet (normSnap []) "motion" = PyVal.none ∧
    pyGet (normSnap []) "ssid" = PyVal.none ∧
    pyGet (normSnap []) "local_ip" = PyVal.none := by
  have h := c5_normalizer_missing_fields [] rfl
  obtain ⟨e1, e2, -, -, -, -, -, -, e9, -, -, -, -, e14, e15⟩ := h
  exact ⟨rfl, e1, e2, e9 rfl, (e14 rfl).1, e15 rfl rfl⟩

/-- C2 is FALSE of the code: `get_status` catches every fetch error and
returns `{}` instead of raising, so the coordinator's failure path never
runs.  After a successful first poll (raw `{"Motion_Trigger": 1}`), a
failing second poll replaces the stored snapshot with the empty dict
rather than retaining the previous one, and a failing very first poll
yields a successful startup with empty data instead of a hard not-ready
failure. -/
theorem c2_fetch_failure_not_retained :
    (getStatus true (Except.error ()) = Except.ok []) ∧
    (coordRefresh
        (coordRefresh ⟨Option.none, false⟩ (getStatus true (Except.ok rawMotion1)))
        (getStatus true (Except.error ()))).data = some [] ∧
    (coordRefresh ⟨Option.none, false⟩
        (getStatus true (Except.ok rawMotion1))).data ≠ some [] ∧
    firstRefresh (getStatus true (Except.error ())) =
      Except.ok { data := some [], lastSuccess := true } := by
  refine ⟨rfl, rfl, ?_, rfl⟩
  simp [coordRefresh, getStatus, normalizeStatus, pyGetD, pyGet, rawMotion1,
    List.find?]

/-- C3 is FALSE of the code: the normalizer stores the raw
`Motion_Trigger` value under the key `"motion"`, but `SIMPLE_MAP` makes
`Hp7BinarySimple` read the key `"Motion_Trigger"` from the normalized
data, which is never present — so the motion binary sensor reads false
on every normalized snapshot, including the raw status
`{"Motion_Trigger": 1}`. -/
theorem c3_motion_key_mismatch :
    pyGet (normSnap rawMotion1) "motion" = PyVal.int 1 ∧
    to_bool (pyGet (normSnap rawMotion1) "motion") = true ∧
    SIMPLE_MAP.map Prod.fst = ["Motion_Trigger"] ∧
    binSimpleIsOn (some (normSnap rawMotion1)) "Motion_Trigger" = false ∧
    (∀ raw : List (String × PyVal),
       binSimpleIsOn (some (normSnap raw)) "Motion_Trigger" = false) := by
  refine ⟨rfl, rfl, rfl, rfl, ?_⟩
  intro raw
  rw [normSnap]
  cases hn : normalizeStatus raw with
  | error e =>
    simp [binSimpleIsOn, pyGet, to_bool, List.find?]
  | ok snap =>
    rw [normalizeStatus] at hn
    cases hval : pyGetD raw "WIFI" (PyVal.dict []) <;> rw [hval] at hn <;>
      simp at hn
    case dict wifi =>
      subst hn
      simp [binSimpleIsOn, pyGet, to_bool, List.find?]

end EzvizHp7
